import Mathlib

/-!
Verification development for the FL-Studio-mcp repository.

This file gives a shallow embedding of the command/response protocol core:
the JSON value model, the two command dispatchers
(`src/MCP_Server/fl_server.py` class `FLStudioServer` and
`src/FlStudioMCP_Remote_Script/__init__.py` class `FLStudioMCP`),
the per-connection receive loop, and the resilient client
(`src/MCP_Server/fl_client.py` class `FLStudioClient`), together with
theorems about the stated properties of the protocol.

Python values travelling through the protocol are JSON values; they are
modelled by the inductive `Value` below (Python `None`/`bool`/`int`/`float`/
`str`/`list`/`dict`, with floats modelled as rationals: the sources only
move float literals around, never compute with them). Exceptions are
modelled by `Except String`; network and scheduling nondeterminism is
modelled by explicit oracle parameters.
-/

/-- A Python/JSON value as it appears in commands, params and responses. -/
inductive Value where
  | null : Value
  | bool (b : Bool) : Value
  | int (n : Int) : Value
  | rat (q : ℚ) : Value
  | str (s : String) : Value
  | list (xs : List Value) : Value
  | obj (fields : List (String × Value)) : Value

/-- Is the value a JSON object (a Python dict)? -/
def Value.isObj : Value → Bool
  | .obj _ => true
  | _ => false

/-- Python `v is None`. -/
def Value.isNull : Value → Bool
  | .null => true
  | _ => false

/-- A `params` mapping (Python dict), as an association list; lookups take
the first matching key. -/
abbrev Params := List (String × Value)

/-- First-match association lookup, the read operation on a `Params` dict. -/
def lookupV : Params → String → Option Value
  | [], _ => none
  | (k, v) :: rest, key => if k = key then some v else lookupV rest key

/-- Python `params.get(key, default)`: the stored value when the key is
present (even a stored `None`), else the default. -/
def Params.getD (p : Params) (k : String) (d : Value) : Value :=
  (lookupV p k).getD d

/-- Python `params.get(key)`: `None` when the key is absent.  Absent keys
and stored `null` are both Python `None`, so both map to `Value.null`. -/
def Params.getN (p : Params) (k : String) : Value :=
  (lookupV p k).getD .null

/-- Python truthiness of a value (used for `if not notes:`). -/
def pyTruthy : Value → Bool
  | .null => false
  | .bool b => b
  | .int n => n ≠ 0
  | .rat q => q ≠ 0
  | .str s => s ≠ ""
  | .list xs => ¬ xs.isEmpty
  | .obj fs => ¬ fs.isEmpty

/-- Python `str(v)` for the value shapes the handlers interpolate into
f-strings.  Only the `int`, `str`, `bool` and `None` renderings are exact;
the remaining renderings are best-effort and no theorem depends on them. -/
def pyStr : Value → String
  | .null => "None"
  | .bool b => if b then "True" else "False"
  | .int n => toString n
  | .rat q => toString q
  | .str s => s
  | .list _ => "[...]"
  | .obj _ => "dict"

/-- Python `v >= 0`: defined on numbers and bools, a `TypeError` otherwise
(`True`/`False` compare as `1`/`0`). -/
def pyGE0 : Value → Except String Bool
  | .int n => .ok (decide (0 ≤ n))
  | .rat q => .ok (decide (0 ≤ q))
  | .bool _ => .ok true
  | _ => .error "TypeError: comparison with int not supported"

/-- Python `v < 0`: defined on numbers and bools, a `TypeError` otherwise. -/
def pyLT0 : Value → Except String Bool
  | .int n => .ok (decide (n < 0))
  | .rat q => .ok (decide (q < 0))
  | .bool _ => .ok false
  | _ => .error "TypeError: comparison with int not supported"

/-- Python `v + 1`: defined on numbers and bools, a `TypeError` otherwise. -/
def pyAdd1 : Value → Except String Value
  | .int n => .ok (.int (n + 1))
  | .rat q => .ok (.rat (q + 1))
  | .bool b => .ok (.int (if b then 2 else 1))
  | _ => .error "TypeError: unsupported operand types for addition"

/-- Python `len(v)`: defined on sequences and mappings, a `TypeError`
otherwise. -/
def pyLen : Value → Except String Int
  | .list xs => .ok xs.length
  | .str s => .ok s.length
  | .obj fs => .ok fs.length
  | _ => .error "TypeError: object has no length"

/-- Python `int(s)` on a string: optional surrounding whitespace, optional
sign, at least one digit; raises `ValueError` otherwise. -/
def pyIntOfString (s : String) : Option Int :=
  let t := s.trim
  let neg := t.startsWith "-"
  let core := if neg || t.startsWith "+" then t.drop 1 else t
  if core ≠ "" ∧ core.toList.all Char.isDigit then
    match core.toNat? with
    | some n => some (if neg then -(n : Int) else (n : Int))
    | none => none
  else none

/-- A protocol response as the Python dicts actually built by the sources:
a `status` string, an optional `result` entry and an optional `message`
entry.  A response dict without a `result` key is `result = none`; the
remote script keeps its initial empty `result` dict on error paths, which
is `result = some (.obj [])`. -/
structure PyResponse where
  status : String
  result : Option Value
  message : Option String

/-- A protocol command: a `type` string selecting the handler, and a
`params` dict. -/
structure Command where
  type : String
  params : Params

namespace FLStudioServer

/-! Embedding of `src/MCP_Server/fl_server.py`, class `FLStudioServer`:
the standalone (simulated) dispatcher. -/

/-- `FLStudioServer._get_session_info` (fl_server.py lines 166-181). -/
def get_session_info : PyResponse :=
  ⟨"success", some (.obj [
    ("tempo", .int 120),
    ("signature_numerator", .int 4),
    ("signature_denominator", .int 4),
    ("track_count", .int 8),
    ("master_track", .obj [
      ("name", .str "Master"),
      ("volume", .rat 0.8),
      ("panning", .rat 0.5)])]), none⟩

/-- `FLStudioServer._get_track_info` (fl_server.py lines 183-197). -/
def get_track_info (track_index : Value) : PyResponse :=
  ⟨"success", some (.obj [
    ("index", track_index),
    ("name", .str ("Track " ++ pyStr track_index)),
    ("volume", .rat 0.8),
    ("panning", .rat 0.5),
    ("mute", .bool false),
    ("solo", .bool false),
    ("arm", .bool false),
    ("color", .list [.int 0, .int 0, .int 255])]), none⟩

/-- `FLStudioServer._create_midi_track` (fl_server.py lines 199-219):
a string index is converted with `int(...)`; then
`track_index = index if index >= 0 else 8`; conversion and comparison
failures are caught and reported as an error response. -/
def create_midi_track (index : Value) : PyResponse :=
  match index with
  | .str s =>
    match pyIntOfString s with
    | some n =>
      ⟨"success", some (.obj [("index", .int (if 0 ≤ n then n else 8))]), none⟩
    | none =>
      ⟨"error", none, some "Invalid track index: invalid literal for int() with base 10"⟩
  | .int n =>
    ⟨"success", some (.obj [("index", .int (if 0 ≤ n then n else 8))]), none⟩
  | .rat q =>
    if 0 ≤ q then ⟨"success", some (.obj [("index", .rat q)]), none⟩
    else ⟨"success", some (.obj [("index", .int 8)]), none⟩
  | .bool b =>
    ⟨"success", some (.obj [("index", .bool b)]), none⟩
  | _ =>
    ⟨"error", none, some "Invalid track index: comparison with int not supported"⟩

/-- `FLStudioServer._set_track_name` (fl_server.py lines 221-226). -/
def set_track_name (track_index name : Value) : PyResponse :=
  if track_index.isNull ∨ name.isNull then
    ⟨"error", none, some "Missing track_index or name parameter"⟩
  else ⟨"success", none, none⟩

/-- `FLStudioServer._create_pattern` (fl_server.py lines 228-240): the
`length` parameter is accepted but the result only carries the simulated
pattern index `0`. -/
def create_pattern (name : Value) : PyResponse :=
  if name.isNull then
    ⟨"error", none, some "Missing name parameter"⟩
  else ⟨"success", some (.obj [("index", .int 0)]), none⟩

/-- `FLStudioServer._add_notes_to_pattern` (fl_server.py lines 242-247):
missing parameters or a falsy `notes` value give an error. -/
def add_notes_to_pattern (pattern_index track_index notes : Value) : PyResponse :=
  if pattern_index.isNull ∨ track_index.isNull ∨ ¬ pyTruthy notes then
    ⟨"error", none, some "Missing pattern_index, track_index, or notes parameter"⟩
  else ⟨"success", none, none⟩

/-- `FLStudioServer._set_pattern_name` (fl_server.py lines 249-254). -/
def set_pattern_name (pattern_index name : Value) : PyResponse :=
  if pattern_index.isNull ∨ name.isNull then
    ⟨"error", none, some "Missing pattern_index or name parameter"⟩
  else ⟨"success", none, none⟩

/-- `FLStudioServer._set_tempo` (fl_server.py lines 256-261). -/
def set_tempo (tempo : Value) : PyResponse :=
  if tempo.isNull then ⟨"error", none, some "Missing tempo parameter"⟩
  else ⟨"success", none, none⟩

/-- `FLStudioServer._play_pattern` (fl_server.py lines 263-268). -/
def play_pattern (pattern_index : Value) : PyResponse :=
  if pattern_index.isNull then
    ⟨"error", none, some "Missing pattern_index parameter"⟩
  else ⟨"success", none, none⟩

/-- `FLStudioServer._stop_pattern` (fl_server.py lines 270-275). -/
def stop_pattern (pattern_index : Value) : PyResponse :=
  if pattern_index.isNull then
    ⟨"error", none, some "Missing pattern_index parameter"⟩
  else ⟨"success", none, none⟩

/-- `FLStudioServer._start_playback` (fl_server.py lines 277-279). -/
def start_playback : PyResponse := ⟨"success", none, none⟩

/-- `FLStudioServer._stop_playback` (fl_server.py lines 281-283). -/
def stop_playback : PyResponse := ⟨"success", none, none⟩

/-- `FLStudioServer._get_plugin_list` (fl_server.py lines 285-309). -/
def get_plugin_list : PyResponse :=
  ⟨"success", some (.obj [("plugins", .list [
    .str "3x Osc", .str "FLEX", .str "Sytrus", .str "Harmless",
    .str "Harmor", .str "FPC", .str "Slicex", .str "DirectWave",
    .str "Fruity Reeverb 2", .str "Fruity Delay 3",
    .str "Fruity Parametric EQ 2", .str "Fruity Limiter",
    .str "Fruity Compressor"])]), none⟩

/-- `FLStudioServer._load_plugin` (fl_server.py lines 311-316). -/
def load_plugin (track_index plugin_name : Value) : PyResponse :=
  if track_index.isNull ∨ plugin_name.isNull then
    ⟨"error", none, some "Missing track_index or plugin_name parameter"⟩
  else ⟨"success", none, none⟩

/-- `FLStudioServer._process_command` (fl_server.py lines 128-163): the
if/elif dispatch chain on the command `type`. -/
def process_command (command : Command) : PyResponse :=
  let command_type := command.type
  let params := command.params
  if command_type = "get_session_info" then get_session_info
  else if command_type = "get_track_info" then
    get_track_info (params.getD "track_index" (.int 0))
  else if command_type = "create_midi_track" then
    create_midi_track (params.getD "index" (.int (-1)))
  else if command_type = "set_track_name" then
    set_track_name (params.getN "track_index") (params.getN "name")
  else if command_type = "create_pattern" then
    create_pattern (params.getN "name")
  else if command_type = "add_notes_to_pattern" then
    add_notes_to_pattern (params.getN "pattern_index") (params.getN "track_index")
      (params.getD "notes" (.list []))
  else if command_type = "set_pattern_name" then
    set_pattern_name (params.getN "pattern_index") (params.getN "name")
  else if command_type = "set_tempo" then
    set_tempo (params.getN "tempo")
  else if command_type = "play_pattern" then
    play_pattern (params.getN "pattern_index")
  else if command_type = "stop_pattern" then
    stop_pattern (params.getN "pattern_index")
  else if command_type = "start_playback" then start_playback
  else if command_type = "stop_playback" then stop_playback
  else if command_type = "get_plugin_list" then get_plugin_list
  else if command_type = "load_plugin" then
    load_plugin (params.getN "track_index") (params.getN "plugin_name")
  else ⟨"error", none, some ("Unknown command type: " ++ command_type)⟩

end FLStudioServer

namespace FLStudioMCP

/-! Embedding of `src/FlStudioMCP_Remote_Script/__init__.py`, class
`FLStudioMCP`.  The handlers below embed the branches executed when the
host scripting API is not importable (`FL_STUDIO_API_AVAILABLE = False`),
which is the only branch defined by the repository itself: the spec
treats the host's native scripting surface as an external collaborator
outside the protocol core.  The thread/queue bounded wait of the mutating
path (lines 294-309) is a real-time construct; its two possible outcomes
are modelled by `WaitOutcome`. -/

/-- Outcome of `response_queue.get(timeout=10.0)`: either the handler
task's put arrived within the bound, or the wait ended with
`queue.Empty`. -/
inductive WaitOutcome where
  | delivered : WaitOutcome
  | timedOut : WaitOutcome

/-- What the handler task puts on the response queue (lines 288 and 292):
a success carrying the handler result, or an error carrying `str(e)`. -/
inductive TaskResult where
  | success (result : Value) : TaskResult
  | error (msg : String) : TaskResult

/-- `FLStudioMCP._get_session_info`, API-unavailable branch (lines
328-340). -/
def get_session_info : Value :=
  .obj [
    ("tempo", .int 140),
    ("signature_numerator", .int 4),
    ("signature_denominator", .int 4),
    ("track_count", .int 16),
    ("master_track", .obj [
      ("name", .str "Master"),
      ("volume", .rat 0.8),
      ("panning", .rat 0.5)])]

/-- `FLStudioMCP._get_track_info`, API-unavailable branch (lines 362-374);
the f-string computes `track_index + 1`, which raises on non-numeric
values. -/
def get_track_info (track_index : Value) : Except String Value :=
  match pyAdd1 track_index with
  | .ok v => .ok (.obj [
      ("index", track_index),
      ("name", .str ("Channel " ++ pyStr v)),
      ("is_audio_track", .bool false),
      ("is_midi_track", .bool true),
      ("mute", .bool false),
      ("solo", .bool false),
      ("volume", .rat 0.8),
      ("panning", .rat 0.5),
      ("patterns", .list [])]
    )
  | .error m => .error m

/-- `FLStudioMCP._get_plugin_list`, API-unavailable branch (lines
666-681). -/
def get_plugin_list : Value :=
  .obj [("plugins", .list [
    .obj [("name", .str "3x Osc"), ("type", .str "instrument")],
    .obj [("name", .str "FLEX"), ("type", .str "instrument")],
    .obj [("name", .str "Fruity Parametric EQ 2"), ("type", .str "effect")],
    .obj [("name", .str "Fruity Limiter"), ("type", .str "effect")],
    .obj [("name", .str "Fruity Reeverb 2"), ("type", .str "effect")],
    .obj [("name", .str "Fruity Delay 3"), ("type", .str "effect")],
    .obj [("name", .str "Fruity Compressor"), ("type", .str "effect")],
    .obj [("name", .str "Sytrus"), ("type", .str "instrument")],
    .obj [("name", .str "Harmor"), ("type", .str "instrument")],
    .obj [("name", .str "Fruity Chorus"), ("type", .str "effect")]])]

/-- The list of command types dispatched through the worker-thread/queue
path (`_process_command`, lines 236-239). -/
def mutating_types : List String :=
  ["create_midi_track", "set_track_name",
   "create_pattern", "add_notes_to_pattern", "set_pattern_name",
   "set_tempo", "play_pattern", "stop_pattern",
   "start_playback", "stop_playback", "load_plugin"]

/-- The body of the worker task `task()` inside `_process_command`
(lines 244-292), running the API-unavailable handler branches: computes
the value put on the response queue.  An exception inside a handler is
put as an error with `str(e)`. -/
def task_run (command_type : String) (params : Params) : TaskResult :=
  if command_type = "create_midi_track" then
    let index := params.getD "index" (.int (-1))
    match pyGE0 index with
    | .ok ge =>
      if ge then
        match pyAdd1 index with
        | .ok ip1 =>
          .success (.obj [("index", index), ("name", .str ("Channel " ++ pyStr ip1))])
        | .error m => .error m
      else
        .success (.obj [("index", .int 0), ("name", .str "Channel 1")])
    | .error m => .error m
  else if command_type = "set_track_name" then
    .success (.obj [("name", params.getD "name" (.str ""))])
  else if command_type = "create_pattern" then
    let pattern_index := params.getD "pattern_index" (.int 0)
    let length := params.getD "length" (.rat 4.0)
    match pyAdd1 pattern_index with
    | .ok p1 => .success (.obj [("name", .str ("Pattern " ++ pyStr p1)), ("length", length)])
    | .error m => .error m
  else if command_type = "add_notes_to_pattern" then
    let notes := params.getD "notes" (.list [])
    match pyLen notes with
    | .ok n => .success (.obj [("note_count", .int n)])
    | .error m => .error m
  else if command_type = "set_pattern_name" then
    .success (.obj [("name", params.getD "name" (.str ""))])
  else if command_type = "set_tempo" then
    .success (.obj [("tempo", params.getD "tempo" (.rat 120.0))])
  else if command_type = "play_pattern" then
    .success (.obj [("playing", .bool true), ("pattern_index", params.getD "pattern_index" (.int 0))])
  else if command_type = "stop_pattern" then
    .success (.obj [("stopped", .bool true), ("pattern_index", params.getD "pattern_index" (.int 0))])
  else if command_type = "start_playback" then
    .success (.obj [("playing", .bool true)])
  else if command_type = "stop_playback" then
    .success (.obj [("playing", .bool false)])
  else if command_type = "load_plugin" then
    .success (.obj [
      ("loaded", .bool false),
      ("plugin_name", params.getD "plugin_name" (.str "")),
      ("track_index", params.getD "track_index" (.int 0)),
      ("message", .str "FL Studio API not available. Please load the plugin manually.")])
  else
    .success .null

/-- `FLStudioMCP._process_command` (lines 217-321).  The response dict is
initialised to status `success` with an empty `result`; error paths
overwrite `status` and add a `message` but never delete the `result`
entry.  The second component records whether a spawned handler task is
still outstanding (neither finished nor cancelled) when the dispatcher
returns: the code never cancels the worker thread, so this is `true`
exactly on the timeout path. -/
def process_command (cmd : Command) (w : WaitOutcome) : PyResponse × Bool :=
  let command_type := cmd.type
  let params := cmd.params
  if command_type = "get_session_info" then
    (⟨"success", some get_session_info, none⟩, false)
  else if command_type = "get_track_info" then
    match get_track_info (params.getD "track_index" (.int 0)) with
    | .ok r => (⟨"success", some r, none⟩, false)
    | .error m => (⟨"error", some (.obj []), some m⟩, false)
  else if mutating_types.contains command_type then
    match w with
    | .delivered =>
      match task_run command_type params with
      | .success r => (⟨"success", some r, none⟩, false)
      | .error m => (⟨"error", some (.obj []), some m⟩, false)
    | .timedOut =>
      (⟨"error", some (.obj []), some "Timeout waiting for operation to complete"⟩, true)
  else if command_type = "get_plugin_list" then
    (⟨"success", some get_plugin_list, none⟩, false)
  else
    (⟨"error", some (.obj []), some ("Unknown command: " ++ command_type)⟩, false)

/-- State of one accepted connection in `FLStudioMCP._handle_client`
(lines 154-215): the accumulation buffer and whether the handler has left
its loop and closed the socket. -/
structure ConnState where
  buffer : String
  closed : Bool

/-- One iteration of the receive loop in `FLStudioMCP._handle_client`
(lines 161-188), for a read that returned `data`: an empty read is EOF
and closes the connection; otherwise the data is appended to the buffer
and `json.loads` (abstracted as `parse`) is attempted on the whole
buffer.  A successful parse clears the buffer and dispatches; a
`JSONDecodeError` of any kind is handled by `continue`: the buffer is
kept, no response is sent, and the connection stays open. -/
def handle_client_step (parse : String → Option Command)
    (dispatch : Command → PyResponse)
    (st : ConnState) (data : String) : ConnState × Option PyResponse :=
  if data = "" then ({ st with closed := true }, none)
  else
    let buffer := st.buffer ++ data
    match parse buffer with
    | some cmd => ({ st with buffer := "" }, some (dispatch cmd))
    | none => ({ st with buffer := buffer }, none)

end FLStudioMCP

namespace FLStudioServer

/-- One iteration of the receive loop in `FLStudioServer._handle_client`
(fl_server.py lines 84-107): there is no accumulation buffer; an empty
read is EOF (first component `true` means the loop is left and the
connection closed); any `json.JSONDecodeError` from the freshly received
bytes is answered inline with an `Invalid JSON` error response while the
connection stays open. -/
def handle_client_step (parse : String → Option Command)
    (dispatch : Command → PyResponse)
    (data : String) : Bool × Option PyResponse :=
  if data = "" then (true, none)
  else
    match parse data with
    | some cmd => (false, some (dispatch cmd))
    | none => (false, some ⟨"error", none, some "Invalid JSON"⟩)

end FLStudioServer

/-! Embedding of `src/MCP_Server/fl_client.py`: the resilient client.
The module-global `SIMULATION_MODE` flag and the `FLStudioClient`
instance fields form one sequential state `ClientState`.  The network is
an oracle: each real connect attempt consumes one `Bool` (did the TCP
connect succeed?), and each send/receive exchange consumes one
`IOOutcome`.  `random.randint` consumes an `Int` oracle, clamped into the
requested interval, which is exactly the guarantee `randint` gives. -/

/-- The socket object held by the client: `fresh` is a socket object
whose `connect()` did not (yet) succeed, `live` one whose `connect()`
succeeded. -/
inductive SockState where
  | fresh : SockState
  | live : SockState
deriving DecidableEq

/-- The instance fields of `FLStudioClient.__init__` (fl_client.py lines
16-23); `reconnect_delay` only feeds `time.sleep` and is omitted. -/
structure FLStudioClient where
  host : String
  port : Int
  connected : Bool
  sock : Option SockState
  reconnect_attempts : Nat
  max_reconnect_attempts : Nat

/-- The sequential state of the client module: the global
`SIMULATION_MODE` flag plus the client instance. -/
structure ClientState where
  simulation_mode : Bool
  client : FLStudioClient

/-- Outcome of one `sendall`/`recv`/`json.loads` exchange inside the
`try` of `send_command` (fl_client.py lines 113-128). -/
inductive IOOutcome where
  | ok (resp : List (String × Value)) : IOOutcome
  | sockErr : IOOutcome
  | otherErr (msg : String) : IOOutcome

/-- Everything `send_command` leaves behind: the returned value or raised
exception, the final state, and the unconsumed oracles. -/
structure SendOutcome where
  ret : Except String Value
  state : ClientState
  connectEnv : List Bool
  netEnv : List IOOutcome
  rands : List Int

namespace FLStudioClient

/-- A fresh client as built by `FLStudioClient.__init__` (lines 16-23),
with `max_reconnect_attempts = 3`. -/
def init (host : String) (port : Int) : FLStudioClient :=
  { host := host, port := port, connected := false, sock := none,
    reconnect_attempts := 0, max_reconnect_attempts := 3 }

/-- The initial module state: `SIMULATION_MODE = False` and a fresh
client. -/
def initState : ClientState :=
  { simulation_mode := false, client := init "localhost" 9877 }

/-- `random.randint lo hi`: some integer in `[lo, hi]`, taken from the
oracle and clamped into the interval. -/
def randint (lo hi : Int) : List Int → Int × List Int
  | [] => (lo, [])
  | r :: rest => (max lo (min r hi), rest)

/-- `FLStudioClient._get_simulated_response` (fl_client.py lines
158-201).  The `create_midi_track` branch compares the `index` parameter
with `0`, which raises a `TypeError` on non-numeric values; every other
branch is exception-free. -/
def get_simulated_response (command_type : String) (params : Params)
    (rands : List Int) : Except String (Value × List Int) :=
  if command_type = "create_midi_track" then
    let track_index := params.getD "index" (.int (-1))
    match pyLT0 track_index with
    | .ok lt =>
      if lt then
        let p := randint 1 10 rands
        .ok (.obj [("index", .int p.1)], p.2)
      else .ok (.obj [("index", track_index)], rands)
    | .error m => .error m
  else if command_type = "set_track_name" then
    .ok (.obj [("status", .str "success")], rands)
  else if command_type = "create_pattern" then
    let p := randint 0 5 rands
    .ok (.obj [("index", .int p.1)], p.2)
  else if command_type = "add_notes_to_pattern" then
    .ok (.obj [("status", .str "success")], rands)
  else if command_type = "set_tempo" then
    .ok (.obj [("status", .str "success")], rands)
  else if command_type = "get_plugin_list" then
    .ok (.obj [("plugins", .list [
      .str "FLEX", .str "Fruity DX10", .str "Harmor", .str "Sytrus",
      .str "GMS", .str "FPC", .str "DirectWave", .str "Sakura",
      .str "Sawer", .str "Toxic Biohazard"])], rands)
  else if command_type = "load_plugin" then
    .ok (.obj [("status", .str "success")], rands)
  else
    .ok (.obj [("status", .str "success"), ("message", .str "Simulated response")], rands)

/-- `FLStudioClient.connect` (fl_client.py lines 25-74).  `env` is the
outcome of the one TCP connect attempt the call makes when it reaches the
`try` block.  In simulation mode, or when already connected with a
socket, the call returns `True` without touching the network.  On an
attempt, any previous socket is closed and replaced by a fresh one; a
successful connect marks it live and sets `connected`; a failed connect
increments `reconnect_attempts` and returns `False` — the fresh socket
object stays in `self.sock` and `reconnect_attempts` is not reset on
success (that reset lives in `send_command`). -/
def connect (env : Bool) (s : ClientState) : Bool × ClientState :=
  if s.simulation_mode then (true, s)
  else if s.client.connected && s.client.sock.isSome then (true, s)
  else if env then
    (true, { s with client := { s.client with sock := some .live, connected := true } })
  else
    (false, { s with client :=
      { s.client with
        sock := some .fresh
        reconnect_attempts := s.client.reconnect_attempts + 1 } })

/-- `FLStudioClient.disconnect` (fl_client.py lines 76-85): closes and
clears the socket and the `connected` flag, but only when a socket
object is held. -/
def disconnect (s : ClientState) : ClientState :=
  if s.client.sock.isSome then
    { s with client := { s.client with sock := none, connected := false } }
  else s

/-- The repeated fragment `SIMULATION_MODE = True` followed by
`return self._get_simulated_response(...)` (fl_client.py lines 99-101
and 150-152): switch the module to simulation mode, then answer from the
fallback (whose possible exception propagates with the flag left set). -/
def sim_switch (command_type : String) (params : Params) (rands : List Int)
    (s2 : ClientState) (cs : List Bool) (ne : List IOOutcome) : Option SendOutcome :=
  match get_simulated_response command_type params rands with
  | .ok p => some ⟨.ok p.1, { s2 with simulation_mode := true }, cs, ne, p.2⟩
  | .error m => some ⟨.error m, { s2 with simulation_mode := true }, cs, ne, rands⟩

/-- The `try`/`except` exchange of `send_command` (fl_client.py lines
113-156), entered with a connected client `s1`: consumes one `IOOutcome`.
A parsed response with status `error` is raised and re-raised by the
generic handler as a connection-lost error after `disconnect`
(lines 131-133 and 153-156); a success resets `reconnect_attempts` and
returns the `result` payload (lines 136-138); a socket error disconnects
and, while attempts remain, retries once through `connect` and a
recursive `send_command` before switching to simulation (lines 139-152);
any other exception disconnects and re-raises wrapped (lines 153-156). -/
def send_io
    (recur : String → Params → ClientState → List Bool → List IOOutcome →
      List Int → Option SendOutcome)
    (command_type : String) (params : Params) (rands : List Int)
    (s1 : ClientState) (cs : List Bool) (netEnv : List IOOutcome) :
    Option SendOutcome :=
  match netEnv with
  | [] => none
  | io :: rest =>
    match io with
    | .ok respObj =>
      let isErr := match lookupV respObj "status" with
                   | some (.str st) => st == "error"
                   | _ => false
      if isErr then
        let m := match lookupV respObj "message" with
                 | some v => pyStr v
                 | none => "Unknown error from FL Studio"
        some ⟨.error ("Connection to FL Studio lost: " ++ m), disconnect s1, cs, rest, rands⟩
      else
        some ⟨.ok ((lookupV respObj "result").getD (.obj [])),
          { s1 with client := { s1.client with reconnect_attempts := 0 } },
          cs, rest, rands⟩
    | .sockErr =>
      let sD := disconnect s1
      if sD.client.reconnect_attempts < sD.client.max_reconnect_attempts then
        let sE := { sD with client := { sD.client with
            reconnect_attempts := sD.client.reconnect_attempts + 1 } }
        match cs with
        | [] => none
        | env :: cs2 =>
          let p := connect env sE
          if p.1 then recur command_type params p.2 cs2 rest rands
          else sim_switch command_type params rands p.2 cs2 rest
      else sim_switch command_type params rands sD cs rest
    | .otherErr m =>
      some ⟨.error ("Connection to FL Studio lost: " ++ m), disconnect s1, cs, rest, rands⟩

/-- One unfolding of `FLStudioClient.send_command` (fl_client.py lines
87-156), with the recursive call sites abstracted as `recur`.  Paths, in
source order: simulation shortcut (lines 92-93); when not connected, one
connect attempt, and on its failure either the give-up switch to
simulation at `reconnect_attempts >= max_reconnect_attempts` or a
delayed recursive retry after a further increment (lines 96-106); once
connected, the exchange `send_io` (lines 108-156). -/
def send_step
    (recur : String → Params → ClientState → List Bool → List IOOutcome →
      List Int → Option SendOutcome)
    (command_type : String) (params : Params) (s : ClientState)
    (connectEnv : List Bool) (netEnv : List IOOutcome) (rands : List Int) :
    Option SendOutcome :=
  if s.simulation_mode then
    match get_simulated_response command_type params rands with
    | .ok p => some ⟨.ok p.1, s, connectEnv, netEnv, p.2⟩
    | .error m => some ⟨.error m, s, connectEnv, netEnv, rands⟩
  else if s.client.connected then
    send_io recur command_type params rands s connectEnv netEnv
  else
    match connectEnv with
    | [] => none
    | env :: cs =>
      let p := connect env s
      if p.1 then send_io recur command_type params rands p.2 cs netEnv
      else if p.2.client.reconnect_attempts ≥ p.2.client.max_reconnect_attempts then
        sim_switch command_type params rands p.2 cs netEnv
      else
        recur command_type params
          { p.2 with client := { p.2.client with
              reconnect_attempts := p.2.client.reconnect_attempts + 1 } }
          cs netEnv rands

/-- `FLStudioClient.send_command`, tying the recursion of `send_step`
with a fuel bound; `none` means the oracles or the fuel were exhausted
before the call returned. -/
def send_command : Nat → String → Params → ClientState → List Bool →
    List IOOutcome → List Int → Option SendOutcome
  | 0, _, _, _, _, _, _ => none
  | fuel + 1, command_type, params, s, cs, ne, rands =>
    send_step (send_command fuel) command_type params s cs ne rands

end FLStudioClient

/-- Status/message coherence of a response: the status is one of the two
protocol statuses, and a `message` entry is present exactly when the
status is `error`. -/
def PyResponse.statusMessageCoherent (r : PyResponse) : Prop :=
  (r.status = "success" ∨ r.status = "error") ∧ (r.message.isSome ↔ r.status = "error")

/-- The client-state invariant that the code does maintain: a connected
client always holds a live socket. -/
def ClientState.connImpliesLive (s : ClientState) : Prop :=
  s.client.connected = true → s.client.sock = some SockState.live

/-- The client module state after three consecutive failed `connect()`
calls on a fresh client with no reachable server. -/
def FLStudioClient.afterThreeFailedConnects : ClientState :=
  (FLStudioClient.connect false
    (FLStudioClient.connect false
      (FLStudioClient.connect false FLStudioClient.initState).2).2).2

/-!
### Theorems

One theorem (plus, where needed, a witness or a counterexample) per
verified property of the protocol.
-/

/-- C2: for every command of a mutating type, if the worker task has not
delivered a result when the 10-second queue wait elapses, the dispatcher
returns status `error` with the exact message
`Timeout waiting for operation to complete`, and the worker task is
still outstanding — the dispatcher does not cancel it. -/
theorem C2_mutating_timeout (command_type : String) (params : Params)
    (h : command_type ∈ FLStudioMCP.mutating_types) :
    FLStudioMCP.process_command ⟨command_type, params⟩ .timedOut =
      (⟨"error", some (.obj []), some "Timeout waiting for operation to complete"⟩, true) := by
  fin_cases h <;> rfl

/-- C2 witness: the timeout response for a concrete `set_tempo` command. -/
theorem C2_mutating_timeout_witness :
    FLStudioMCP.process_command ⟨"set_tempo", [("tempo", .int 128)]⟩ .timedOut =
      (⟨"error", some (.obj []), some "Timeout waiting for operation to complete"⟩, true) :=
  C2_mutating_timeout "set_tempo" [("tempo", .int 128)] (by decide)

/-- C3 counterexample: the MCP_Server dispatcher, one of the two
dispatchers the claim covers, answers the literal unknown command
`{"type": "X", "params": {}}` with the message `Unknown command type: X`,
which is not the claimed `Unknown command: X`. -/
theorem C3_counterexample :
    FLStudioServer.process_command ⟨"X", []⟩ =
      ⟨"error", none, some "Unknown command type: X"⟩ ∧
    ("Unknown command type: X" : String) ≠ "Unknown command: X" := by
  refine ⟨rfl, by decide⟩

/-- C3 (amended): for a command type with no handler, the Remote Script
dispatcher returns status `error` with message `Unknown command: `
followed by the type — in particular `Unknown command: X` for the input
with type `X` — while the MCP_Server dispatcher returns
`Unknown command type: ` followed by the type. -/
theorem C3_unknown_command (command_type : String) (params : Params)
    (w : FLStudioMCP.WaitOutcome)
    (h1 : command_type ∉ ["get_session_info", "get_track_info", "get_plugin_list"])
    (h2 : command_type ∉ FLStudioMCP.mutating_types)
    (h3 : command_type ∉ ["create_midi_track", "set_track_name", "create_pattern",
      "add_notes_to_pattern", "set_pattern_name", "set_tempo", "play_pattern",
      "stop_pattern", "start_playback", "stop_playback", "load_plugin"]) :
    (FLStudioMCP.process_command ⟨command_type, params⟩ w).1 =
      ⟨"error", some (.obj []), some ("Unknown command: " ++ command_type)⟩ ∧
    FLStudioServer.process_command ⟨command_type, params⟩ =
      ⟨"error", none, some ("Unknown command type: " ++ command_type)⟩ := by
  simp only [List.mem_cons, List.not_mem_nil, or_false, not_or] at h1 h3
  obtain ⟨n1, n2, n3⟩ := h1
  obtain ⟨m1, m2, m3, m4, m5, m6, m7, m8, m9, m10, m11⟩ := h3
  constructor
  · simp [FLStudioMCP.process_command, n1, n2, n3, h2]
  · simp [FLStudioServer.process_command, n1, n2, n3,
      m1, m2, m3, m4, m5, m6, m7, m8, m9, m10, m11]

/-- C3 witness: the amended statement at the literal input
`{"type": "X", "params": {}}`. -/
theorem C3_unknown_command_witness :
    (FLStudioMCP.process_command ⟨"X", []⟩ .delivered).1 =
      ⟨"error", some (.obj []), some ("Unknown command: " ++ "X")⟩ ∧
    FLStudioServer.process_command ⟨"X", []⟩ =
      ⟨"error", none, some ("Unknown command type: " ++ "X")⟩ :=
  C3_unknown_command "X" [] .delivered (by decide) (by decide) (by decide)

/-- C9: dispatching `get_session_info` is idempotent in its observed
result on both dispatchers: any two dispatches (in particular two
consecutive ones with no intervening mutating command) return identical
responses — the handlers read no mutable dispatcher state. -/
theorem C9_get_session_info_idempotent (p1 p2 : Params)
    (w1 w2 : FLStudioMCP.WaitOutcome) :
    FLStudioServer.process_command ⟨"get_session_info", p1⟩ =
      FLStudioServer.process_command ⟨"get_session_info", p2⟩ ∧
    (FLStudioMCP.process_command ⟨"get_session_info", p1⟩ w1).1 =
      (FLStudioMCP.process_command ⟨"get_session_info", p2⟩ w2).1 := by
  constructor <;> rfl

/-- C8: a `create_midi_track` command with `index = -1` yields a result
whose `index` is at least `0`, and with `index = 3` a result whose
`index` equals `3`, in each of the three in-scope implementations: the
MCP_Server handler (which appends at `8`), the client simulation
fallback (a random index clamped into `[1, 10]`), and the Remote Script
dispatcher in its host-API-unavailable branch (which echoes the request,
using `0` for append). -/
theorem C8_create_midi_track_index (rands : List Int) :
    (∃ n : Int, (FLStudioServer.process_command
        ⟨"create_midi_track", [("index", .int (-1))]⟩).result =
          some (.obj [("index", .int n)]) ∧ 0 ≤ n) ∧
    (FLStudioServer.process_command ⟨"create_midi_track", [("index", .int 3)]⟩).result =
      some (.obj [("index", .int 3)]) ∧
    (∃ (r : Int) (rest : List Int),
      FLStudioClient.get_simulated_response "create_midi_track"
          [("index", .int (-1))] rands = .ok (.obj [("index", .int r)], rest) ∧ 0 ≤ r) ∧
    FLStudioClient.get_simulated_response "create_midi_track" [("index", .int 3)] rands =
      .ok (.obj [("index", .int 3)], rands) ∧
    (∃ m : Int, ((FLStudioMCP.process_command
        ⟨"create_midi_track", [("index", .int (-1))]⟩ .delivered).1).result =
          some (.obj [("index", .int m), ("name", .str "Channel 1")]) ∧ 0 ≤ m) ∧
    ((FLStudioMCP.process_command
        ⟨"create_midi_track", [("index", .int 3)]⟩ .delivered).1).result =
      some (.obj [("index", .int 3), ("name", .str "Channel 4")]) := by
  refine ⟨⟨8, rfl, by norm_num⟩, rfl, ?_, rfl, ⟨0, rfl, le_refl 0⟩, rfl⟩
  cases rands with
  | nil => exact ⟨1, [], rfl, by norm_num⟩
  | cons r rest =>
    refine ⟨max 1 (min r 10), rest, rfl, ?_⟩
    exact le_trans (by norm_num : (0:Int) ≤ 1) (le_max_left _ _)

/-- C4 counterexample: two supported, syntactically valid commands whose
responses do not have exactly one of `result`/`message` populated in
agreement with `status`.  The MCP_Server answers a valid
`set_track_name` with a bare success carrying no `result` at all, and
the Remote Script answers a failing `get_track_info` with an error that
retains the initial empty `result` alongside its `message`. -/
theorem C4_counterexample :
    FLStudioServer.process_command
      ⟨"set_track_name", [("track_index", .int 0), ("name", .str "A")]⟩ =
      ⟨"success", none, none⟩ ∧
    ((FLStudioMCP.process_command
        ⟨"get_track_info", [("track_index", .str "a")]⟩ .delivered).1).status = "error" ∧
    ((FLStudioMCP.process_command
        ⟨"get_track_info", [("track_index", .str "a")]⟩ .delivered).1).result =
      some (.obj []) ∧
    ((FLStudioMCP.process_command
        ⟨"get_track_info", [("track_index", .str "a")]⟩ .delivered).1).message.isSome = true := by
  exact ⟨rfl, rfl, rfl, rfl⟩


/-- Boolean form of status/message coherence, for evaluation. -/
def PyResponse.coherentB (r : PyResponse) : Bool :=
  (r.status == "success" || r.status == "error") && (r.message.isSome == (r.status == "error"))

/-- The propositional and boolean coherence checks agree. -/
theorem PyResponse.coherentB_iff (r : PyResponse) :
    r.statusMessageCoherent ↔ r.coherentB = true := by
  rcases r with ⟨st, res, msg⟩
  unfold PyResponse.statusMessageCoherent PyResponse.coherentB
  dsimp only
  cases msg <;> by_cases h1 : st = "success" <;> by_cases h2 : st = "error" <;>
    simp_all

/-- Status/message coherence of one MCP_Server handler. -/
theorem coh_get_track_info (v : Value) :
    (FLStudioServer.get_track_info v).statusMessageCoherent := by
  rw [PyResponse.coherentB_iff]; rfl

/-- Status/message coherence of one MCP_Server handler. -/
theorem coh_create_midi_track (v : Value) :
    (FLStudioServer.create_midi_track v).statusMessageCoherent := by
  unfold FLStudioServer.create_midi_track
  rcases v with _ | b | n | q | s | xs | fs <;>
    (repeat' split) <;> (rw [PyResponse.coherentB_iff]; rfl)

/-- Status/message coherence of one MCP_Server handler. -/
theorem coh_set_track_name (a b : Value) :
    (FLStudioServer.set_track_name a b).statusMessageCoherent := by
  unfold FLStudioServer.set_track_name
  split <;> (rw [PyResponse.coherentB_iff]; rfl)

/-- Status/message coherence of one MCP_Server handler. -/
theorem coh_create_pattern (a : Value) :
    (FLStudioServer.create_pattern a).statusMessageCoherent := by
  unfold FLStudioServer.create_pattern
  split <;> (rw [PyResponse.coherentB_iff]; rfl)

/-- Status/message coherence of one MCP_Server handler. -/
theorem coh_add_notes (a b c : Value) :
    (FLStudioServer.add_notes_to_pattern a b c).statusMessageCoherent := by
  unfold FLStudioServer.add_notes_to_pattern
  split <;> (rw [PyResponse.coherentB_iff]; rfl)

/-- Status/message coherence of one MCP_Server handler. -/
theorem coh_set_pattern_name (a b : Value) :
    (FLStudioServer.set_pattern_name a b).statusMessageCoherent := by
  unfold FLStudioServer.set_pattern_name
  split <;> (rw [PyResponse.coherentB_iff]; rfl)

/-- Status/message coherence of one MCP_Server handler. -/
theorem coh_set_tempo (a : Value) :
    (FLStudioServer.set_tempo a).statusMessageCoherent := by
  unfold FLStudioServer.set_tempo
  split <;> (rw [PyResponse.coherentB_iff]; rfl)

/-- Status/message coherence of one MCP_Server handler. -/
theorem coh_play_pattern (a : Value) :
    (FLStudioServer.play_pattern a).statusMessageCoherent := by
  unfold FLStudioServer.play_pattern
  split <;> (rw [PyResponse.coherentB_iff]; rfl)

/-- Status/message coherence of one MCP_Server handler. -/
theorem coh_stop_pattern (a : Value) :
    (FLStudioServer.stop_pattern a).statusMessageCoherent := by
  unfold FLStudioServer.stop_pattern
  split <;> (rw [PyResponse.coherentB_iff]; rfl)

/-- Status/message coherence of one MCP_Server handler. -/
theorem coh_load_plugin (a b : Value) :
    (FLStudioServer.load_plugin a b).statusMessageCoherent := by
  unfold FLStudioServer.load_plugin
  split <;> (rw [PyResponse.coherentB_iff]; rfl)

/-- Every MCP_Server response has a protocol status with a message
exactly on error (helper for the amended C4). -/
theorem coh_server_dispatch (ct : String) (params : Params) :
    (FLStudioServer.process_command ⟨ct, params⟩).statusMessageCoherent := by
  unfold FLStudioServer.process_command
  dsimp only
  by_cases h0 : ct = "get_session_info"
  · rw [if_pos h0]; (rw [PyResponse.coherentB_iff]; rfl)
  rw [if_neg h0]
  by_cases h1 : ct = "get_track_info"
  · rw [if_pos h1]; exact coh_get_track_info _
  rw [if_neg h1]
  by_cases h2 : ct = "create_midi_track"
  · rw [if_pos h2]; exact coh_create_midi_track _
  rw [if_neg h2]
  by_cases h3 : ct = "set_track_name"
  · rw [if_pos h3]; exact coh_set_track_name _ _
  rw [if_neg h3]
  by_cases h4 : ct = "create_pattern"
  · rw [if_pos h4]; exact coh_create_pattern _
  rw [if_neg h4]
  by_cases h5 : ct = "add_notes_to_pattern"
  · rw [if_pos h5]; exact coh_add_notes _ _ _
  rw [if_neg h5]
  by_cases h6 : ct = "set_pattern_name"
  · rw [if_pos h6]; exact coh_set_pattern_name _ _
  rw [if_neg h6]
  by_cases h7 : ct = "set_tempo"
  · rw [if_pos h7]; exact coh_set_tempo _
  rw [if_neg h7]
  by_cases h8 : ct = "play_pattern"
  · rw [if_pos h8]; exact coh_play_pattern _
  rw [if_neg h8]
  by_cases h9 : ct = "stop_pattern"
  · rw [if_pos h9]; exact coh_stop_pattern _
  rw [if_neg h9]
  by_cases h10 : ct = "start_playback"
  · rw [if_pos h10]; (rw [PyResponse.coherentB_iff]; rfl)
  rw [if_neg h10]
  by_cases h11 : ct = "stop_playback"
  · rw [if_pos h11]; (rw [PyResponse.coherentB_iff]; rfl)
  rw [if_neg h11]
  by_cases h12 : ct = "get_plugin_list"
  · rw [if_pos h12]; (rw [PyResponse.coherentB_iff]; rfl)
  rw [if_neg h12]
  by_cases h13 : ct = "load_plugin"
  · rw [if_pos h13]; exact coh_load_plugin _ _
  rw [if_neg h13]
  rw [PyResponse.coherentB_iff]; rfl

/-- Every Remote Script response has a protocol status with a message
exactly on error, and always carries a `result` entry (helper for the
amended C4). -/
theorem coh_mcp_dispatch (ct : String) (params : Params) (w : FLStudioMCP.WaitOutcome) :
    ((FLStudioMCP.process_command ⟨ct, params⟩ w).1).statusMessageCoherent ∧
    ((FLStudioMCP.process_command ⟨ct, params⟩ w).1).result.isSome = true := by
  unfold FLStudioMCP.process_command
  dsimp only
  by_cases g0 : ct = "get_session_info"
  · rw [if_pos g0]; exact ⟨by rw [PyResponse.coherentB_iff]; rfl, rfl⟩
  rw [if_neg g0]
  by_cases g1 : ct = "get_track_info"
  · rw [if_pos g1]
    cases FLStudioMCP.get_track_info (Params.getD params "track_index" (Value.int 0)) <;>
      exact ⟨by rw [PyResponse.coherentB_iff]; rfl, rfl⟩
  rw [if_neg g1]
  by_cases g2 : FLStudioMCP.mutating_types.contains ct = true
  · rw [if_pos g2]
    cases w
    · cases FLStudioMCP.task_run ct params <;>
        exact ⟨by rw [PyResponse.coherentB_iff]; rfl, rfl⟩
    · exact ⟨by rw [PyResponse.coherentB_iff]; rfl, rfl⟩
  rw [if_neg g2]
  by_cases g3 : ct = "get_plugin_list"
  · rw [if_pos g3]; exact ⟨by rw [PyResponse.coherentB_iff]; rfl, rfl⟩
  rw [if_neg g3]
  exact ⟨by rw [PyResponse.coherentB_iff]; rfl, rfl⟩

/-- C4 (amended): for every command (of any type, with any params) and
either wait outcome, both dispatchers return a response whose status is
`success` or `error` and whose `message` is populated exactly when the
status is `error`.  The claimed exclusivity of `result`/`message` does
not hold: the Remote Script always populates `result` (even on errors,
where it keeps the initial empty dict), and the MCP_Server omits
`result` on several successes. -/
theorem C4_status_message (cmd : Command) (w : FLStudioMCP.WaitOutcome) :
    (FLStudioServer.process_command cmd).statusMessageCoherent ∧
    ((FLStudioMCP.process_command cmd w).1).statusMessageCoherent ∧
    ((FLStudioMCP.process_command cmd w).1).result.isSome = true :=
  ⟨coh_server_dispatch cmd.type cmd.params,
   (coh_mcp_dispatch cmd.type cmd.params w).1,
   (coh_mcp_dispatch cmd.type cmd.params w).2⟩

/-- C5 counterexample: receiving the structurally invalid bytes
`not json` (on which `json.loads` raises a `JSONDecodeError` — modelled
by a parse returning nothing) does not close the connection: the Remote
Script receive loop keeps the bytes in its buffer, sends no response,
and waits for more data, identically to the incomplete-prefix case. -/
theorem C5_counterexample :
    FLStudioMCP.handle_client_step (fun _ => none)
      (fun c => (FLStudioMCP.process_command c .delivered).1)
      ⟨"", false⟩ "not json" = (⟨"not json", false⟩, none) := rfl

/-- C5 (amended): every decode failure in the per-connection receive
loop — whether the buffered bytes are an incomplete JSON prefix or
structurally invalid — is treated the same way: the Remote Script keeps
the accumulated buffer intact, emits nothing, and leaves the connection
open to wait for more data; the MCP_Server variant (which has no
buffer) replies inline with an `Invalid JSON` error response and also
keeps the connection open.  Neither loop closes the connection on a
decode failure. -/
theorem C5_decode_failure (parse : String → Option Command)
    (dispatch : Command → PyResponse) (st : FLStudioMCP.ConnState) (data : String)
    (hne : data ≠ "") (hp : parse (st.buffer ++ data) = none)
    (hp2 : parse data = none) :
    FLStudioMCP.handle_client_step parse dispatch st data =
      ({ st with buffer := st.buffer ++ data }, none) ∧
    FLStudioServer.handle_client_step parse dispatch data =
      (false, some ⟨"error", none, some "Invalid JSON"⟩) := by
  constructor
  · unfold FLStudioMCP.handle_client_step
    rw [if_neg hne]
    dsimp only
    rw [hp]
  · unfold FLStudioServer.handle_client_step
    rw [if_neg hne, hp2]

/-- C5 witness: the amended statement for a parse that fails on the
concrete received chunk. -/
theorem C5_decode_failure_witness :
    FLStudioMCP.handle_client_step (fun _ => none)
      (fun c => (FLStudioMCP.process_command c .delivered).1)
      ⟨"abc", false⟩ "xyz" = (⟨"abcxyz", false⟩, none) ∧
    FLStudioServer.handle_client_step (fun _ => none)
      (fun c => (FLStudioMCP.process_command c .delivered).1) "xyz" =
      (false, some ⟨"error", none, some "Invalid JSON"⟩) :=
  C5_decode_failure (fun _ => none)
    (fun c => (FLStudioMCP.process_command c .delivered).1)
    ⟨"abc", false⟩ "xyz" (by decide) rfl rfl

/-- C6 counterexample: a successful `connect()` does not reset
`reconnect_attempts`: from a disconnected state that has recorded two
failed attempts, a successful connect returns true and sets `connected`,
but the counter stays at 2 instead of the claimed 0. -/
theorem C6_counterexample :
    (FLStudioClient.connect true
      ⟨false, ⟨"localhost", 9877, false, none, 2, 3⟩⟩).1 = true ∧
    ((FLStudioClient.connect true
      ⟨false, ⟨"localhost", 9877, false, none, 2, 3⟩⟩).2).client.connected = true ∧
    ((FLStudioClient.connect true
      ⟨false, ⟨"localhost", 9877, false, none, 2, 3⟩⟩).2).client.reconnect_attempts = 2 ∧
    (2 : Nat) ≠ 0 :=
  ⟨rfl, rfl, rfl, by decide⟩

/-- C6 (amended): outside simulation mode, `connect()` on an
already-connected Session (one holding a socket) is a no-op returning
true; on a successful new connection it returns true, sets `connected`
and stores the live socket but leaves `reconnect_attempts` unchanged
(the reset to zero happens in `send_command` after a successful
exchange, not here); on a failed attempt it increments
`reconnect_attempts`, keeps the fresh socket object, and returns false
rather than raising. -/
theorem C6_connect (s : ClientState) (hs : s.simulation_mode = false) :
    ((s.client.connected && s.client.sock.isSome) = true →
      ∀ env, FLStudioClient.connect env s = (true, s)) ∧
    ((s.client.connected && s.client.sock.isSome) = false →
      FLStudioClient.connect true s =
        (true, { s with client :=
          { s.client with sock := some .live, connected := true } }) ∧
      FLStudioClient.connect false s =
        (false, { s with client :=
          { s.client with
            sock := some .fresh
            reconnect_attempts := s.client.reconnect_attempts + 1 } })) := by
  constructor
  · intro h env
    simp [FLStudioClient.connect, hs, h]
  · intro h
    constructor <;> simp [FLStudioClient.connect, hs, h]

/-- C6 witness: the amended statement at two concrete session states. -/
theorem C6_connect_witness :
    FLStudioClient.connect true ⟨false, ⟨"localhost", 9877, true, some .live, 1, 3⟩⟩ =
      (true, ⟨false, ⟨"localhost", 9877, true, some .live, 1, 3⟩⟩) ∧
    FLStudioClient.connect false ⟨false, ⟨"localhost", 9877, false, none, 0, 3⟩⟩ =
      (false, ⟨false, ⟨"localhost", 9877, false, some .fresh, 1, 3⟩⟩) :=
  ⟨(C6_connect ⟨false, ⟨"localhost", 9877, true, some .live, 1, 3⟩⟩ rfl).1 rfl true,
   ((C6_connect ⟨false, ⟨"localhost", 9877, false, none, 0, 3⟩⟩ rfl).2 rfl).2⟩

/-- C7 counterexample: one failed `connect()` on a fresh client leaves
`connected = false` while `self.sock` still references the fresh socket
object whose connect attempt failed — the claimed unreachable state
(not connected, non-null socket) is reached immediately. -/
theorem C7_counterexample :
    ((FLStudioClient.connect false FLStudioClient.initState).2).client.connected = false ∧
    ((FLStudioClient.connect false FLStudioClient.initState).2).client.sock = some .fresh :=
  ⟨rfl, rfl⟩

/-- `connect` preserves the connected-implies-live-socket invariant. -/
theorem connect_inv (env : Bool) (s : ClientState) (h : s.connImpliesLive) :
    ((FLStudioClient.connect env s).2).connImpliesLive := by
  unfold FLStudioClient.connect ClientState.connImpliesLive at *
  split_ifs with h1 h2 h3 <;> simp_all

/-- `disconnect` preserves the connected-implies-live-socket invariant. -/
theorem disconnect_inv (s : ClientState) (h : s.connImpliesLive) :
    (FLStudioClient.disconnect s).connImpliesLive := by
  unfold FLStudioClient.disconnect ClientState.connImpliesLive at *
  split_ifs <;> simp_all

/-- `sim_switch` preserves the connected-implies-live-socket invariant. -/
theorem sim_switch_inv (ct : String) (p : Params) (rands : List Int)
    (s2 : ClientState) (cs : List Bool) (ne : List IOOutcome) (out : SendOutcome)
    (h : s2.connImpliesLive)
    (hout : FLStudioClient.sim_switch ct p rands s2 cs ne = some out) :
    out.state.connImpliesLive := by
  unfold FLStudioClient.sim_switch at hout
  split at hout <;> (rw [Option.some_inj] at hout; subst hout; exact h)

/-- Incrementing `reconnect_attempts` preserves the invariant. -/
theorem bump_inv (s : ClientState) (h : s.connImpliesLive) :
    ({ s with client := { s.client with
        reconnect_attempts := s.client.reconnect_attempts + 1 } } : ClientState).connImpliesLive := h

/-- The send/receive exchange preserves the invariant, given that the
recursive retry does. -/
theorem send_io_inv
    (recur : String → Params → ClientState → List Bool → List IOOutcome →
      List Int → Option SendOutcome)
    (hrec : ∀ ct p s cs ne rands out, s.connImpliesLive →
      recur ct p s cs ne rands = some out → out.state.connImpliesLive)
    (ct : String) (p : Params) (rands : List Int) (s1 : ClientState)
    (cs : List Bool) (ne : List IOOutcome) (out : SendOutcome)
    (h : s1.connImpliesLive)
    (hout : FLStudioClient.send_io recur ct p rands s1 cs ne = some out) :
    out.state.connImpliesLive := by
  rcases ne with _ | ⟨io, rest⟩
  · exact absurd hout (by simp [FLStudioClient.send_io])
  rcases io with respObj | _ | m
  · simp only [FLStudioClient.send_io] at hout
    split at hout <;> (rw [Option.some_inj] at hout; subst hout)
    · exact disconnect_inv s1 h
    · exact h
  · simp only [FLStudioClient.send_io] at hout
    split at hout
    · rcases cs with _ | ⟨env, cs2⟩
      · exact absurd hout (by simp)
      · simp only at hout
        split at hout
        · exact hrec _ _ _ _ _ _ _
            (connect_inv env _ (bump_inv _ (disconnect_inv s1 h))) hout
        · exact sim_switch_inv _ _ _ _ _ _ _
            (connect_inv env _ (bump_inv _ (disconnect_inv s1 h))) hout
    · exact sim_switch_inv _ _ _ _ _ _ _ (disconnect_inv s1 h) hout
  · simp only [FLStudioClient.send_io] at hout
    rw [Option.some_inj] at hout; subst hout
    exact disconnect_inv s1 h

/-- `send_command` preserves the connected-implies-live-socket
invariant. -/
theorem send_command_inv : ∀ (fuel : Nat) (ct : String) (p : Params)
    (s : ClientState) (cs : List Bool) (ne : List IOOutcome) (rands : List Int)
    (out : SendOutcome), s.connImpliesLive →
    FLStudioClient.send_command fuel ct p s cs ne rands = some out →
    out.state.connImpliesLive := by
  intro fuel
  induction fuel with
  | zero =>
    intro ct p s cs ne rands out h hout
    exact absurd hout (by simp [FLStudioClient.send_command])
  | succ n ih =>
    intro ct p s cs ne rands out h hout
    simp only [FLStudioClient.send_command] at hout
    unfold FLStudioClient.send_step at hout
    split_ifs at hout with h1 h2
    · split at hout <;> (rw [Option.some_inj] at hout; subst hout; exact h)
    · exact send_io_inv _ ih ct p rands s cs ne out h hout
    · rcases cs with _ | ⟨env, cs2⟩
      · exact absurd hout (by simp)
      · simp only at hout
        split at hout
        · exact send_io_inv _ ih ct p rands _ cs2 ne out (connect_inv env s h) hout
        · split at hout
          · exact sim_switch_inv _ _ _ _ _ _ _ (connect_inv env s h) hout
          · exact ih _ _ _ _ _ _ _ (bump_inv _ (connect_inv env s h)) hout

/-- C7 (amended): the half of the claimed invariant that holds is
`connected` implies a live socket: it is true initially and preserved by
`connect`, `disconnect` and `send_command`.  The other half fails: a
failed connect attempt leaves a stale fresh-socket reference with
`connected = false` (see the counterexample), so "not connected implies
no socket reference" is not an invariant; `disconnect` is what clears
the socket. -/
theorem C7_socket_invariant :
    FLStudioClient.initState.connImpliesLive ∧
    (∀ s : ClientState, s.connImpliesLive →
      (∀ env, ((FLStudioClient.connect env s).2).connImpliesLive) ∧
      (FLStudioClient.disconnect s).connImpliesLive ∧
      (∀ (fuel : Nat) (ct : String) (p : Params) (cs : List Bool)
          (ne : List IOOutcome) (rands : List Int) (out : SendOutcome),
        FLStudioClient.send_command fuel ct p s cs ne rands = some out →
        out.state.connImpliesLive)) := by
  constructor
  · intro hc
    exact absurd hc (by decide)
  · intro s h
    exact ⟨fun env => connect_inv env s h, disconnect_inv s h,
      fun fuel ct p cs ne rands out hout =>
        send_command_inv fuel ct p s cs ne rands out h hout⟩

/-- C7 witness: the preserved half applied at a concrete connected
state. -/
theorem C7_socket_invariant_witness :
    ((FLStudioClient.connect true
      ⟨false, ⟨"localhost", 9877, true, some .live, 0, 3⟩⟩).2).connImpliesLive :=
  (C7_socket_invariant.2 ⟨false, ⟨"localhost", 9877, true, some .live, 0, 3⟩⟩
    (fun _ => rfl)).1 true

/-- C10: for a connected, non-simulating Session, a wire response whose
status is `error` is not returned to the caller: `send_command` raises
the server's message rewrapped as a connection-lost error (the inline
`raise` lands in the generic exception handler) and disconnects the
socket, so the final state holds no socket and is not connected. -/
theorem C10_error_response_raises (s : ClientState) (ct : String) (p : Params)
    (cs : List Bool) (ne : List IOOutcome) (rands : List Int) (fuel : Nat)
    (respObj : List (String × Value)) (m : String)
    (hsim : s.simulation_mode = false) (hconn : s.client.connected = true)
    (hsock : s.client.sock.isSome = true)
    (hst : lookupV respObj "status" = some (.str "error"))
    (hm : lookupV respObj "message" = some (.str m)) :
    FLStudioClient.send_command (fuel + 1) ct p s cs (.ok respObj :: ne) rands =
      some ⟨.error ("Connection to FL Studio lost: " ++ m),
        FLStudioClient.disconnect s, cs, ne, rands⟩ ∧
    (FLStudioClient.disconnect s).client.connected = false ∧
    (FLStudioClient.disconnect s).client.sock = none := by
  refine ⟨?_, ?_, ?_⟩
  · simp only [FLStudioClient.send_command]
    unfold FLStudioClient.send_step
    rw [if_neg (by simp [hsim]), if_pos hconn]
    unfold FLStudioClient.send_io
    dsimp only
    rw [hst, hm]
    simp [pyStr]
  · simp [FLStudioClient.disconnect, hsock]
  · simp [FLStudioClient.disconnect, hsock]

/-- C10 witness: a concrete connected session receiving a concrete error
response. -/
theorem C10_error_response_raises_witness :
    FLStudioClient.send_command 1 "get_session_info" []
      ⟨false, ⟨"localhost", 9877, true, some .live, 0, 3⟩⟩ []
      [.ok [("status", .str "error"), ("message", .str "boom")]] [] =
      some ⟨.error ("Connection to FL Studio lost: " ++ "boom"),
        FLStudioClient.disconnect ⟨false, ⟨"localhost", 9877, true, some .live, 0, 3⟩⟩,
        [], [], []⟩ ∧
    (FLStudioClient.disconnect
      ⟨false, ⟨"localhost", 9877, true, some .live, 0, 3⟩⟩).client.connected = false ∧
    (FLStudioClient.disconnect
      ⟨false, ⟨"localhost", 9877, true, some .live, 0, 3⟩⟩).client.sock = none :=
  C10_error_response_raises ⟨false, ⟨"localhost", 9877, true, some .live, 0, 3⟩⟩
    "get_session_info" [] [] [] [] 0
    [("status", .str "error"), ("message", .str "boom")] "boom"
    rfl rfl rfl rfl rfl

/-- Every value the simulation fallback produces is a JSON object. -/
theorem get_simulated_response_isObj (ct : String) (p : Params) (r : List Int)
    (v : Value) (r2 : List Int)
    (h : FLStudioClient.get_simulated_response ct p r = .ok (v, r2)) :
    v.isObj = true := by
  unfold FLStudioClient.get_simulated_response at h
  split_ifs at h
  case pos =>
    simp only [] at h
    rcases hlt : pyLT0 (Params.getD p "index" (Value.int (-1))) with em | lt <;>
      rw [hlt] at h
    · simp at h
    · dsimp only at h
      split at h <;>
        (simp only [Except.ok.injEq, Prod.mk.injEq] at h
         obtain ⟨h1, -⟩ := h
         subst h1
         rfl)
  all_goals
    (simp only [Except.ok.injEq, Prod.mk.injEq] at h
     obtain ⟨h1, -⟩ := h
     subst h1
     rfl)

/-- C1: with `max_reconnect_attempts = 3` and no reachable server, after
three consecutive failed `connect()` calls a `send_command` call does
not raise: its own connect attempt fails, the attempt count passes the
maximum, the module switches to simulation mode, and the simulated
response for the command — a JSON object — is returned.  The flag is
then sticky: any further send returns its simulated response
immediately from the unchanged state, consuming no network oracle at
all. -/
theorem C1_simulation_fallback (ct : String) (p : Params) (rands rands2 : List Int)
    (ne : List IOOutcome) (v : Value) (rands3 : List Int)
    (h : FLStudioClient.get_simulated_response ct p rands = .ok (v, rands3)) :
    ∃ out : SendOutcome,
      FLStudioClient.send_command 1 ct p FLStudioClient.afterThreeFailedConnects
          [false] ne rands = some out ∧
      out.ret = .ok v ∧ v.isObj = true ∧
      out.state.simulation_mode = true ∧
      (∀ (ct2 : String) (p2 : Params) (cs2 : List Bool) (ne2 : List IOOutcome)
          (v2 : Value) (r2 : List Int),
        FLStudioClient.get_simulated_response ct2 p2 rands2 = .ok (v2, r2) →
        FLStudioClient.send_command 1 ct2 p2 out.state cs2 ne2 rands2 =
          some ⟨.ok v2, out.state, cs2, ne2, r2⟩) := by
  refine ⟨⟨.ok v, ⟨true, ⟨"localhost", 9877, false, some .fresh, 4, 3⟩⟩, [], ne, rands3⟩,
    ?_, rfl, get_simulated_response_isObj ct p rands v rands3 h, rfl, ?_⟩
  · have e : FLStudioClient.send_command 1 ct p FLStudioClient.afterThreeFailedConnects
        [false] ne rands =
        FLStudioClient.sim_switch ct p rands
          ⟨false, ⟨"localhost", 9877, false, some .fresh, 4, 3⟩⟩ [] ne := rfl
    rw [e]
    unfold FLStudioClient.sim_switch
    rw [h]
  · intro ct2 p2 cs2 ne2 v2 r2 h2
    have e2 : FLStudioClient.send_command 1 ct2 p2
        (⟨true, ⟨"localhost", 9877, false, some .fresh, 4, 3⟩⟩ : ClientState) cs2 ne2 rands2 =
        match FLStudioClient.get_simulated_response ct2 p2 rands2 with
        | .ok q => some ⟨.ok q.1,
            ⟨true, ⟨"localhost", 9877, false, some .fresh, 4, 3⟩⟩, cs2, ne2, q.2⟩
        | .error m => some ⟨.error m,
            ⟨true, ⟨"localhost", 9877, false, some .fresh, 4, 3⟩⟩, cs2, ne2, rands2⟩ := rfl
    rw [e2, h2]

/-- C1 witness: the degraded-session behaviour at a concrete `set_tempo`
command. -/
theorem C1_simulation_fallback_witness :
    ∃ out : SendOutcome,
      FLStudioClient.send_command 1 "set_tempo" []
          FLStudioClient.afterThreeFailedConnects [false] [] [] = some out ∧
      out.ret = .ok (.obj [("status", .str "success")]) ∧
      (Value.obj [("status", .str "success")]).isObj = true ∧
      out.state.simulation_mode = true ∧
      (∀ (ct2 : String) (p2 : Params) (cs2 : List Bool) (ne2 : List IOOutcome)
          (v2 : Value) (r2 : List Int),
        FLStudioClient.get_simulated_response ct2 p2 [] = .ok (v2, r2) →
        FLStudioClient.send_command 1 ct2 p2 out.state cs2 ne2 [] =
          some ⟨.ok v2, out.state, cs2, ne2, r2⟩) :=
  C1_simulation_fallback "set_tempo" [] [] [] []
    (.obj [("status", .str "success")]) [] rfl
